import Mathlib

/-!
Shallow embedding of the LED Runner game (`src/game.py`) and proofs about it.
Pure game logic is translated directly; display, logging and hardware IOs are
modelled only through the data they read (pixel buffers, event records).
Timestamps are rationals; `random.choice` is resolved by an explicit index
argument into the list it chooses from.
-/

namespace LedGame

/-- RGB color triple. -/
abbrev RGB := Nat × Nat × Nat

/-- Game states `STATE_PLAYING`, `STATE_PAUSED`, `STATE_GAME_OVER` (game.py lines 18-21). -/
inductive GState where
  | playing
  | paused
  | gameOver
deriving DecidableEq

/-- The four obstacle colors of `color_defs` (game.py lines 67-72). -/
inductive ColorName where
  | yellow
  | red
  | green
  | blue
deriving DecidableEq

/-- Button numbers from the configuration (`game_config['buttons']`, game.py lines 64-72). -/
structure ButtonConfig where
  yellow : Nat
  red : Nat
  green : Nat
  blue : Nat
  start : Nat
deriving DecidableEq

/-- One entry of the `colors` mapping built by `assign_colors_to_players`. -/
structure ColorAssign where
  rgb : RGB
  button : Nat
  player : Nat
deriving DecidableEq

/-- The rgb component of `color_defs` (game.py lines 67-72). -/
def color_rgb : ColorName → RGB
  | .yellow => (255, 255, 0)
  | .red => (255, 0, 0)
  | .green => (0, 150, 0)
  | .blue => (0, 0, 255)

/-- The button component of `color_defs` (game.py lines 67-72). -/
def color_button (bc : ButtonConfig) : ColorName → Nat
  | .yellow => bc.yellow
  | .red => bc.red
  | .green => bc.green
  | .blue => bc.blue

/-- `assign_colors_to_players` (game.py lines 133-164). -/
def assign_colors_to_players (bc : ButtonConfig) (num_players : Nat) : ColorName → ColorAssign :=
  if num_players = 1 then
    fun c => ⟨color_rgb c, color_button bc c, 0⟩
  else if num_players = 2 then
    fun c => match c with
      | .yellow => ⟨color_rgb .yellow, color_button bc .yellow, 0⟩
      | .red => ⟨color_rgb .red, color_button bc .red, 0⟩
      | .green => ⟨color_rgb .green, color_button bc .green, 1⟩
      | .blue => ⟨color_rgb .blue, color_button bc .blue, 1⟩
  else if num_players = 3 then
    fun c => match c with
      | .yellow => ⟨color_rgb .yellow, color_button bc .yellow, 0⟩
      | .red => ⟨color_rgb .red, color_button bc .red, 1⟩
      | .green => ⟨color_rgb .green, color_button bc .green, 2⟩
      | .blue => ⟨color_rgb .blue, color_button bc .blue, 2⟩
  else
    fun c => match c with
      | .yellow => ⟨color_rgb .yellow, color_button bc .yellow, 0⟩
      | .red => ⟨color_rgb .red, color_button bc .red, 1⟩
      | .green => ⟨color_rgb .green, color_button bc .green, 2⟩
      | .blue => ⟨color_rgb .blue, color_button bc .blue, 3⟩

/-- An obstacle dict (game.py lines 389-395). -/
structure Obstacle where
  pos : Int
  color : RGB
  button : Nat
  player : Nat
  color_name : ColorName
deriving DecidableEq

/-- A pygame JOYBUTTONDOWN event: controller index and button number. -/
structure JoyEvent where
  joy : Nat
  button : Nat
deriving DecidableEq

/-- The mutable fields of `LEDGame` read and written by the game logic. -/
structure GameState where
  ledCount : Nat
  buttons : ButtonConfig
  player_color : RGB
  numPlayers : Nat
  state : GState
  player_pos : Nat
  obstacles : List Obstacle
  score : Nat
  pressed_buttons : List ((Nat × Nat) × ℚ)
  button_duration : ℚ
  obstacles_passed : Nat
  current_difficulty : Nat
  spawn_interval : Nat
  next_spawn_at : Int
  color_history : List RGB
  base_speed : ℚ
  current_speed : ℚ

/-- `self.colors`, recomputed from the player count (game.py line 125). -/
def GameState.colors (s : GameState) : ColorName → ColorAssign :=
  assign_colors_to_players s.buttons s.numPlayers

/-- `reset_game` (game.py lines 187-201). -/
def reset_game (s : GameState) : GameState :=
  { s with
    player_pos := s.ledCount / 2
    obstacles := []
    score := 0
    pressed_buttons := []
    button_duration := 1
    obstacles_passed := 0
    current_difficulty := 1
    spawn_interval := s.ledCount / 2
    next_spawn_at := (s.ledCount : Int) - 1
    color_history := []
    base_speed := 1/4
    current_speed := 1/4 }

/-- The state right after `__init__` (game.py lines 87-90): a fresh reset, playing. -/
def initGame (ledCount : Nat) (bc : ButtonConfig) (numPlayers : Nat) (pc : RGB) : GameState :=
  reset_game
    { ledCount := ledCount, buttons := bc, player_color := pc, numPlayers := numPlayers,
      state := GState.playing, player_pos := ledCount / 2, obstacles := [], score := 0,
      pressed_buttons := [], button_duration := 1, obstacles_passed := 0,
      current_difficulty := 1, spawn_interval := ledCount / 2,
      next_spawn_at := (ledCount : Int) - 1, color_history := [], base_speed := 1/4,
      current_speed := 1/4 }

/-- Python dict assignment `d[key] = value`: overwrite in place, or append when new. -/
def dictInsert (k : Nat × Nat) (v : ℚ) (d : List ((Nat × Nat) × ℚ)) :
    List ((Nat × Nat) × ℚ) :=
  if d.any (fun e => decide (e.1 = k)) then d.map (fun e => if e.1 = k then (k, v) else e)
  else d ++ [(k, v)]

/-- `press_button` (game.py lines 286-294); the announcement print is display-only. -/
def press_button (s : GameState) (player_idx button : Nat) (now : ℚ) : GameState :=
  { s with pressed_buttons := dictInsert (player_idx, button) now s.pressed_buttons }

/-- `is_button_pressed` (game.py lines 296-305), with the `self` fields explicit. -/
def is_button_pressed (num_players : Nat) (pressed : List ((Nat × Nat) × ℚ))
    (required_player button : Nat) : Bool :=
  if num_players = 1 then pressed.any (fun e => decide (e.1.2 = button))
  else pressed.any (fun e => decide (e.1 = (required_player, button)))

/-- `get_available_colors` (game.py lines 307-335), with the `self` fields explicit. -/
def get_available_colors (num_players score : Nat) : List ColorName :=
  if num_players = 1 then
    if score ≥ 18 then [.yellow, .red, .green, .blue]
    else if score ≥ 12 then [.yellow, .red, .green]
    else if score ≥ 6 then [.yellow, .red]
    else [.yellow]
  else if num_players = 2 then
    if score ≥ 6 then [.yellow, .red, .green, .blue]
    else if score ≥ 3 then [.yellow, .red, .green]
    else [.yellow, .green]
  else if num_players = 3 then
    if score ≥ 6 then [.yellow, .red, .green, .blue]
    else [.yellow, .red, .green]
  else [.yellow, .red, .green, .blue]

/-- The difficulty level computed from score in `update_difficulty` (game.py lines 339-350). -/
def new_difficulty (score : Nat) : Nat :=
  if score ≤ 2 then 1
  else if score ≤ 5 then 2
  else if score ≤ 9 then 3
  else if score ≤ 14 then 4
  else if score ≤ 20 then 5
  else 5 + (score - 20) / 8

/-- `update_difficulty` (game.py lines 337-357); the announcement prints are display-only. -/
def update_difficulty (s : GameState) : GameState :=
  if new_difficulty s.score > s.current_difficulty then
    { s with
      current_difficulty := new_difficulty s.score
      spawn_interval := max 3 (s.ledCount / new_difficulty s.score)
      current_speed := max (1/20 : ℚ) (s.base_speed - (new_difficulty s.score : ℚ) * (3/200)) }
  else s

/-- `spawn_obstacle` (game.py lines 377-398); `choice` resolves `random.choice` as an
index into the available-color list. -/
def spawn_obstacle (s : GameState) (choice : Nat) : GameState :=
  let spawn_pos : Int := (s.ledCount : Int) - 1
  if s.obstacles.any (fun o => decide (o.pos = spawn_pos)) then s
  else
    let avail := get_available_colors s.numPlayers s.score
    let color_name := avail.getD (choice % avail.length) ColorName.yellow
    let cd := s.colors color_name
    { s with
      obstacles := s.obstacles ++
        [{ pos := spawn_pos, color := cd.rgb, button := cd.button, player := cd.player,
           color_name := color_name }]
      next_spawn_at := spawn_pos - (s.spawn_interval : Int) }

/-- The spawn check of `update_obstacles` (game.py lines 466-467). -/
def maybe_spawn (s : GameState) (choice : Nat) : GameState :=
  match s.obstacles.getLast? with
  | none => spawn_obstacle s choice
  | some last => if last.pos ≤ s.next_spawn_at then spawn_obstacle s choice else s

/-- The lazy expiry sweep at the top of `update_obstacles` (game.py lines 457-461). -/
def expire_presses (s : GameState) (now : ℚ) : GameState :=
  { s with pressed_buttons :=
      s.pressed_buttons.filter (fun e => !decide (now - e.2 > s.button_duration)) }

/-- The advance loop of `update_obstacles` (game.py lines 463-464). -/
def advance_obstacles (s : GameState) : GameState :=
  { s with obstacles := s.obstacles.map (fun o => { o with pos := o.pos - 1 }) }

/-- `game_over` (game.py lines 400-412): the state transition; animations are display-only. -/
def game_over (s : GameState) : GameState :=
  { s with state := GState.gameOver }

/-- The collision loop of `update_obstacles` (game.py lines 469-484); the Bool records
the early return taken on a miss. -/
def check_collisions (s : GameState) : List Obstacle → GameState × Bool
  | [] => (s, false)
  | o :: rest =>
    if o.pos = (s.player_pos : Int) then
      if is_button_pressed s.numPlayers s.pressed_buttons o.player o.button then
        check_collisions { s with color_history := s.color_history ++ [o.color] } rest
      else (game_over s, true)
    else check_collisions s rest

/-- The prune/score step of `update_obstacles` (game.py lines 486-494). -/
def prune_and_score (s : GameState) : GameState :=
  let before := s.obstacles.length
  let kept := s.obstacles.filter (fun o => decide (o.pos ≥ 0))
  let passed := before - kept.length
  if passed > 0 then
    update_difficulty
      { s with obstacles := kept, obstacles_passed := s.obstacles_passed + passed,
               score := s.score + 1 }
  else { s with obstacles := kept }

/-- The pre-collision state of a tick: expiry sweep, advance, spawn check. -/
def preCollide (s : GameState) (now : ℚ) (choice : Nat) : GameState :=
  maybe_spawn (advance_obstacles (expire_presses s now)) choice

/-- `update_obstacles` (game.py lines 455-494). -/
def update_obstacles (s : GameState) (now : ℚ) (choice : Nat) : GameState :=
  if (check_collisions (preCollide s now choice) (preCollide s now choice).obstacles).2 then
    (check_collisions (preCollide s now choice) (preCollide s now choice).obstacles).1
  else
    prune_and_score (check_collisions (preCollide s now choice) (preCollide s now choice).obstacles).1

/-- Whether the collision scan of this tick finds a miss (the early-return branch). -/
def tickMiss (s : GameState) (now : ℚ) (choice : Nat) : Bool :=
  (check_collisions (preCollide s now choice) (preCollide s now choice).obstacles).2

/-- Iterate `update_obstacles` over a list of (time, spawn-choice) tick inputs. -/
def runTicks (s : GameState) : List (ℚ × Nat) → GameState
  | [] => s
  | t :: rest => runTicks (update_obstacles s t.1 t.2) rest

/-- No tick of the run takes the miss branch. -/
def noMissRun (s : GameState) : List (ℚ × Nat) → Bool
  | [] => true
  | t :: rest => !tickMiss s t.1 t.2 && noMissRun (update_obstacles s t.1 t.2) rest

/-- First color in the `self.colors` iteration order whose button matches
(game.py lines 445-446). -/
def findColorForButton (s : GameState) (b : Nat) : Option ColorName :=
  [ColorName.yellow, ColorName.red, ColorName.green, ColorName.blue].find?
    (fun cn => decide ((s.colors cn).button = b))

/-- `handle_input` for a single JOYBUTTONDOWN event (game.py lines 414-453);
controller re-detection on restart is external and keeps the same player count here. -/
def handle_event (s : GameState) (ev : JoyEvent) (now : ℚ) : GameState :=
  if ev.joy ≥ s.numPlayers then s
  else if ev.button = s.buttons.start then
    match s.state with
    | GState.playing => { s with state := GState.paused }
    | GState.paused => { s with state := GState.playing }
    | GState.gameOver => { reset_game s with state := GState.playing }
  else if s.state = GState.playing then
    match findColorForButton s ev.button with
    | some cn =>
      if s.numPlayers = 1 then press_button s ev.joy ev.button now
      else if ev.joy = (s.colors cn).player then press_button s ev.joy ev.button now
      else s
    | none => s
  else s

/-- The obstacle-drawing loop of `update_display` (game.py lines 207-209). -/
def drawObstacles (count : Nat) (buf : List RGB) (obstacles : List Obstacle) : List RGB :=
  obstacles.foldl
    (fun b o => if 0 ≤ o.pos ∧ o.pos < (count : Int) then b.set o.pos.toNat o.color else b)
    buf

/-- `update_display` (game.py lines 203-214): the pixel buffer written to the strip. -/
def update_display (s : GameState) : List RGB :=
  let buf := drawObstacles s.ledCount
    (List.replicate s.ledCount ((0 : Nat), (0 : Nat), (0 : Nat))) s.obstacles
  if s.pressed_buttons.length = 0 then buf.set s.player_pos s.player_color else buf

/-- Hit colors collected and miss flag of one collision scan, as pure list data. -/
def scanHits (np pp : Nat) (pressed : List ((Nat × Nat) × ℚ)) : List Obstacle → List RGB × Bool
  | [] => ([], false)
  | o :: rest =>
    if o.pos = (pp : Int) then
      if is_button_pressed np pressed o.player o.button then
        let r := scanHits np pp pressed rest
        (o.color :: r.1, r.2)
      else ([], true)
    else scanHits np pp pressed rest

/-- Positions of live obstacles in a playing round: in range and pairwise distinct. -/
def Inv (s : GameState) : Prop :=
  (∀ o ∈ s.obstacles, 0 ≤ o.pos ∧ o.pos ≤ (s.ledCount : Int) - 1) ∧
  s.obstacles.Pairwise (fun a b => a.pos ≠ b.pos)

/-- Which latch keys satisfy `is_button_pressed` (player-agnostic in single-player). -/
def pressMatches (num_players required_player button : Nat) (key : Nat × Nat) : Bool :=
  if num_players = 1 then decide (key.2 = button) else decide (key = (required_player, button))

/-- A sample button configuration: yellow/red/green/blue on buttons 4/5/6/7, start on 9. -/
def bc0 : ButtonConfig := ⟨4, 5, 6, 7, 9⟩

/-- A freshly reset single-player game on a 10-LED strip, used for concrete runs. -/
def baseState : GameState :=
  { ledCount := 10, buttons := bc0, player_color := (255, 255, 255), numPlayers := 1,
    state := GState.playing, player_pos := 5, obstacles := [], score := 0,
    pressed_buttons := [], button_duration := 1, obstacles_passed := 0,
    current_difficulty := 1, spawn_interval := 5, next_spawn_at := 0, color_history := [],
    base_speed := 1/4, current_speed := 1/4 }

/-- A yellow obstacle one step before the player position, with no button latched. -/
def w1State : GameState :=
  { baseState with obstacles := [⟨6, (255, 255, 0), 4, 0, ColorName.yellow⟩] }

/-- A yellow obstacle about to pass the left edge of the strip. -/
def w2State : GameState :=
  { baseState with obstacles := [⟨0, (255, 255, 0), 4, 0, ColorName.yellow⟩],
                   next_spawn_at := 9 }

/-- A latch entry for (player 0, button 4) pressed at time 4. -/
def w5State : GameState := { baseState with pressed_buttons := [((0, 4), 4)] }

/-- A two-player game in the Playing state. -/
def w8State : GameState := { baseState with numPlayers := 2 }

/-- Two obstacles with distinct in-range positions. -/
def w9State : GameState :=
  { baseState with obstacles := [⟨0, (255, 255, 0), 4, 0, ColorName.yellow⟩,
                                 ⟨7, (255, 0, 0), 5, 1, ColorName.red⟩],
                   next_spawn_at := 3 }

/-- An obstacle sitting on the player position while a button is latched. -/
def w10State : GameState :=
  { baseState with obstacles := [⟨5, (255, 255, 0), 4, 0, ColorName.yellow⟩],
                   pressed_buttons := [((0, 4), 0)] }

/-- A game on a 4-LED strip, shorter than the spawn-interval guarantee needs. -/
def smallStripState : GameState := { baseState with ledCount := 4 }

/-! ### Characterisation of the collision loop -/

lemma check_collisions_eq (s : GameState) (l : List Obstacle) :
    check_collisions s l =
      ({ s with
          color_history := s.color_history ++
            (scanHits s.numPlayers s.player_pos s.pressed_buttons l).1
          state := if (scanHits s.numPlayers s.player_pos s.pressed_buttons l).2 then
              GState.gameOver else s.state },
        (scanHits s.numPlayers s.player_pos s.pressed_buttons l).2) := by
  induction l generalizing s with
  | nil => simp [check_collisions, scanHits]
  | cons o rest ih =>
    simp only [check_collisions, scanHits]
    split
    · split
      · rw [ih]
        simp [game_over]
      · simp [game_over]
    · exact ih s

lemma check_collisions_fst (s : GameState) (l : List Obstacle) :
    (check_collisions s l).1.obstacles = s.obstacles ∧
    (check_collisions s l).1.score = s.score ∧
    (check_collisions s l).1.obstacles_passed = s.obstacles_passed ∧
    (check_collisions s l).1.current_difficulty = s.current_difficulty ∧
    (check_collisions s l).1.spawn_interval = s.spawn_interval ∧
    (check_collisions s l).1.ledCount = s.ledCount ∧
    (check_collisions s l).1.pressed_buttons = s.pressed_buttons ∧
    (check_collisions s l).1.numPlayers = s.numPlayers ∧
    (check_collisions s l).1.player_pos = s.player_pos := by
  rw [check_collisions_eq]
  exact ⟨rfl, rfl, rfl, rfl, rfl, rfl, rfl, rfl, rfl⟩

lemma scanHits_first_miss (np pp : Nat) (pressed : List ((Nat × Nat) × ℚ))
    (pre : List Obstacle) (m : Obstacle) (post : List Obstacle)
    (hpre : ∀ o ∈ pre, o.pos = (pp : Int) →
      is_button_pressed np pressed o.player o.button = true)
    (hm : m.pos = (pp : Int))
    (hmiss : is_button_pressed np pressed m.player m.button = false) :
    scanHits np pp pressed (pre ++ m :: post) =
      ((pre.filter (fun o => decide (o.pos = (pp : Int)))).map (fun o => o.color), true) := by
  induction pre with
  | nil => simp [scanHits, hm, hmiss]
  | cons a pre ih =>
    simp only [List.cons_append, scanHits, List.append_eq]
    by_cases ha : a.pos = (pp : Int)
    · rw [if_pos ha, if_pos (hpre a (by simp) ha),
        ih (fun o ho hp => hpre o (by simp [ho]) hp)]
      simp [List.filter_cons, ha]
    · rw [if_neg ha, ih (fun o ho hp => hpre o (by simp [ho]) hp)]
      simp [List.filter_cons, ha]

/-! ### Field bookkeeping for the tick phases -/

lemma spawn_obstacle_shape (s : GameState) (choice : Nat) :
    spawn_obstacle s choice = s ∨
    ((∀ o ∈ s.obstacles, o.pos ≠ (s.ledCount : Int) - 1) ∧
      ∃ ob : Obstacle, ob.pos = (s.ledCount : Int) - 1 ∧
        spawn_obstacle s choice =
          { s with obstacles := s.obstacles ++ [ob],
                   next_spawn_at := (s.ledCount : Int) - 1 - (s.spawn_interval : Int) }) := by
  simp only [spawn_obstacle]
  split
  · exact Or.inl rfl
  · next hany =>
    right
    refine ⟨?_, ?_⟩
    · intro o ho hpos
      exact hany (List.any_eq_true.mpr ⟨o, ho, by simp [hpos]⟩)
    · exact ⟨_, rfl, rfl⟩

lemma maybe_spawn_shape (s : GameState) (choice : Nat) :
    maybe_spawn s choice = s ∨
    ((∀ o ∈ s.obstacles, o.pos ≠ (s.ledCount : Int) - 1) ∧
      ∃ ob : Obstacle, ob.pos = (s.ledCount : Int) - 1 ∧
        maybe_spawn s choice =
          { s with obstacles := s.obstacles ++ [ob],
                   next_spawn_at := (s.ledCount : Int) - 1 - (s.spawn_interval : Int) }) := by
  unfold maybe_spawn
  cases s.obstacles.getLast? with
  | none => exact spawn_obstacle_shape s choice
  | some last =>
    dsimp only
    by_cases hle : last.pos ≤ s.next_spawn_at
    · rw [if_pos hle]; exact spawn_obstacle_shape s choice
    · rw [if_neg hle]; exact Or.inl rfl

lemma preCollide_fields (s : GameState) (now : ℚ) (choice : Nat) :
    (preCollide s now choice).ledCount = s.ledCount ∧
    (preCollide s now choice).score = s.score ∧
    (preCollide s now choice).obstacles_passed = s.obstacles_passed ∧
    (preCollide s now choice).color_history = s.color_history ∧
    (preCollide s now choice).player_pos = s.player_pos ∧
    (preCollide s now choice).numPlayers = s.numPlayers ∧
    (preCollide s now choice).pressed_buttons = (expire_presses s now).pressed_buttons ∧
    (preCollide s now choice).current_difficulty = s.current_difficulty ∧
    (preCollide s now choice).spawn_interval = s.spawn_interval ∧
    (preCollide s now choice).state = s.state ∧
    (preCollide s now choice).buttons = s.buttons ∧
    (preCollide s now choice).button_duration = s.button_duration := by
  unfold preCollide
  rcases maybe_spawn_shape (advance_obstacles (expire_presses s now)) choice with h | ⟨-, ob, -, h⟩ <;>
    rw [h] <;>
    exact ⟨rfl, rfl, rfl, rfl, rfl, rfl, rfl, rfl, rfl, rfl, rfl, rfl⟩

lemma update_difficulty_fields (s : GameState) :
    (update_difficulty s).ledCount = s.ledCount ∧
    (update_difficulty s).score = s.score ∧
    (update_difficulty s).obstacles = s.obstacles ∧
    (update_difficulty s).obstacles_passed = s.obstacles_passed ∧
    (update_difficulty s).state = s.state ∧
    (update_difficulty s).player_pos = s.player_pos ∧
    (update_difficulty s).numPlayers = s.numPlayers ∧
    (update_difficulty s).pressed_buttons = s.pressed_buttons ∧
    (update_difficulty s).color_history = s.color_history := by
  unfold update_difficulty
  split <;> exact ⟨rfl, rfl, rfl, rfl, rfl, rfl, rfl, rfl, rfl⟩

lemma update_difficulty_le (s : GameState) :
    s.current_difficulty ≤ (update_difficulty s).current_difficulty := by
  unfold update_difficulty
  split
  · next h => exact Nat.le_of_lt h
  · exact Nat.le_refl _

lemma update_difficulty_spawn3 (s : GameState) (h : 3 ≤ s.spawn_interval) :
    3 ≤ (update_difficulty s).spawn_interval := by
  unfold update_difficulty
  split
  · exact Nat.le_max_left 3 _
  · exact h

/-! ### Counting pruned obstacles -/

lemma filter_length_split (l : List Obstacle) :
    (l.filter (fun o => decide (o.pos ≥ 0))).length +
      (l.filter (fun o => decide (o.pos < 0))).length = l.length := by
  induction l with
  | nil => rfl
  | cons a l ih =>
    rw [List.filter_cons, List.filter_cons]
    by_cases h : a.pos ≥ 0
    · rw [if_pos (decide_eq_true h), if_neg (by simp only [decide_eq_true_eq]; omega)]
      simp only [List.length_cons]
      omega
    · rw [if_neg (by simp only [decide_eq_true_eq]; omega),
        if_pos (decide_eq_true (by omega : a.pos < 0))]
      simp only [List.length_cons]
      omega

lemma count_pos_le_one (l : List Obstacle) (v : Int)
    (h : l.Pairwise (fun a b => a.pos ≠ b.pos)) :
    (l.filter (fun o => decide (o.pos = v))).length ≤ 1 := by
  induction l with
  | nil => simp
  | cons a l ih =>
    rw [List.pairwise_cons] at h
    by_cases ha : a.pos = v
    · have hnil : l.filter (fun o => decide (o.pos = v)) = [] := by
        rw [List.filter_eq_nil_iff]
        intro o ho
        simp only [decide_eq_true_eq]
        intro hv
        exact h.1 o ho (ha.trans hv.symm)
      simp [List.filter_cons, ha, hnil]
    · simp [List.filter_cons, ha]
      exact ih h.2

lemma filter_neg_eq_negone (l : List Obstacle) (hb : ∀ o ∈ l, -1 ≤ o.pos) :
    l.filter (fun o => decide (o.pos < 0)) = l.filter (fun o => decide (o.pos = -1)) := by
  apply List.filter_congr
  intro o ho
  have := hb o ho
  simp only [decide_eq_decide]
  omega

/-! ### The prune/score step -/

lemma prune_and_score_fields (s : GameState) :
    (prune_and_score s).ledCount = s.ledCount ∧
    (prune_and_score s).numPlayers = s.numPlayers ∧
    (prune_and_score s).state = s.state ∧
    (prune_and_score s).player_pos = s.player_pos ∧
    (prune_and_score s).pressed_buttons = s.pressed_buttons ∧
    (prune_and_score s).color_history = s.color_history := by
  simp only [prune_and_score]
  split
  · obtain ⟨h1, -, -, -, h5, h6, h7, h8, h9⟩ := update_difficulty_fields _
    exact ⟨h1, h7, h5, h6, h8, h9⟩
  · exact ⟨rfl, rfl, rfl, rfl, rfl, rfl⟩

lemma prune_and_score_spec (s : GameState)
    (hle : (s.obstacles.filter (fun o => decide (o.pos < 0))).length ≤ 1) :
    (prune_and_score s).obstacles = s.obstacles.filter (fun o => decide (o.pos ≥ 0)) ∧
    (prune_and_score s).score =
      s.score + (s.obstacles.filter (fun o => decide (o.pos < 0))).length ∧
    (prune_and_score s).obstacles_passed =
      s.obstacles_passed + (s.obstacles.filter (fun o => decide (o.pos < 0))).length := by
  have hsplit := filter_length_split s.obstacles
  simp only [prune_and_score]
  split
  · next hpass =>
    obtain ⟨-, hsc, hob, hpa, -, -, -, -, -⟩ := update_difficulty_fields
      { s with obstacles := s.obstacles.filter (fun o => decide (o.pos ≥ 0)),
               obstacles_passed := s.obstacles_passed +
                 (s.obstacles.length - (s.obstacles.filter (fun o => decide (o.pos ≥ 0))).length),
               score := s.score + 1 }
    refine ⟨hob, ?_, ?_⟩
    · rw [hsc]
      show s.score + 1 = _
      omega
    · rw [hpa]
      show s.obstacles_passed + _ = _
      omega
  · next hpass =>
    refine ⟨rfl, ?_, ?_⟩
    · show s.score = _
      omega
    · show s.obstacles_passed = _
      omega

lemma prune_difficulty_le (s : GameState) :
    s.current_difficulty ≤ (prune_and_score s).current_difficulty := by
  simp only [prune_and_score]
  split
  · exact update_difficulty_le
      { s with obstacles := s.obstacles.filter (fun o => decide (o.pos ≥ 0)),
               obstacles_passed := s.obstacles_passed +
                 (s.obstacles.length -
                   (s.obstacles.filter (fun o => decide (o.pos ≥ 0))).length),
               score := s.score + 1 }
  · exact Nat.le_refl _

lemma prune_spawn3 (s : GameState) (h : 3 ≤ s.spawn_interval) :
    3 ≤ (prune_and_score s).spawn_interval := by
  simp only [prune_and_score]
  split
  · refine update_difficulty_spawn3 _ ?_
    exact h
  · exact h

/-! ### The pre-collision state keeps positions in range and distinct -/

lemma preCollide_obstacles (s : GameState) (now : ℚ) (choice : Nat) (hInv : Inv s) :
    (∀ o ∈ (preCollide s now choice).obstacles,
        -1 ≤ o.pos ∧ o.pos ≤ (s.ledCount : Int) - 1) ∧
    (preCollide s now choice).obstacles.Pairwise (fun a b => a.pos ≠ b.pos) := by
  obtain ⟨hbound, hdist⟩ := hInv
  have hobs : (advance_obstacles (expire_presses s now)).obstacles
      = s.obstacles.map (fun o => { o with pos := o.pos - 1 }) := rfl
  have hb2 : ∀ o ∈ (advance_obstacles (expire_presses s now)).obstacles,
      -1 ≤ o.pos ∧ o.pos ≤ (s.ledCount : Int) - 2 := by
    rw [hobs]
    intro o ho
    obtain ⟨o₀, ho₀, rfl⟩ := List.mem_map.mp ho
    have := hbound o₀ ho₀
    constructor
    · show -1 ≤ o₀.pos - 1
      omega
    · show o₀.pos - 1 ≤ _
      omega
  have hd2 : (advance_obstacles (expire_presses s now)).obstacles.Pairwise
      (fun a b => a.pos ≠ b.pos) := by
    rw [hobs, List.pairwise_map]
    refine hdist.imp ?_
    intro a b hne h
    have h' : a.pos - 1 = b.pos - 1 := h
    exact hne (by omega)
  unfold preCollide
  rcases maybe_spawn_shape (advance_obstacles (expire_presses s now)) choice with
    h | ⟨hnone, ob, hob, h⟩
  · rw [h]
    refine ⟨fun o ho => ?_, hd2⟩
    have := hb2 o ho
    omega
  · rw [h]
    have hled : (advance_obstacles (expire_presses s now)).ledCount = s.ledCount := rfl
    rw [hled] at hnone hob
    constructor
    · intro o ho
      show -1 ≤ o.pos ∧ o.pos ≤ (s.ledCount : Int) - 1
      rcases List.mem_append.mp ho with ho' | ho'
    -- the ≤ bound for old obstacles, and range for the fresh spawn
      · have := hb2 o ho'
        omega
      · rw [List.mem_singleton.mp ho', hob]
        omega
    · show ((advance_obstacles (expire_presses s now)).obstacles ++ [ob]).Pairwise
        (fun a b => a.pos ≠ b.pos)
      rw [List.pairwise_append]
      refine ⟨hd2, List.pairwise_singleton _ _, ?_⟩
      intro a ha b hb
      rw [List.mem_singleton.mp hb, hob]
      have := hb2 a ha
      omega

/-! ### One tick with no miss -/

lemma tickMiss_false_result (s : GameState) (now : ℚ) (choice : Nat)
    (hm : tickMiss s now choice = false) :
    update_obstacles s now choice =
      prune_and_score (check_collisions (preCollide s now choice)
        (preCollide s now choice).obstacles).1 := by
  unfold update_obstacles
  have h : (check_collisions (preCollide s now choice)
      (preCollide s now choice).obstacles).2 = false := hm
  rw [h]
  simp

lemma tickMiss_true_result (s : GameState) (now : ℚ) (choice : Nat)
    (hm : tickMiss s now choice = true) :
    update_obstacles s now choice =
      (check_collisions (preCollide s now choice)
        (preCollide s now choice).obstacles).1 := by
  unfold update_obstacles
  have h : (check_collisions (preCollide s now choice)
      (preCollide s now choice).obstacles).2 = true := hm
  rw [h]
  simp

lemma tick_no_miss_spec (s : GameState) (now : ℚ) (choice : Nat) (hInv : Inv s)
    (hm : tickMiss s now choice = false) :
    Inv (update_obstacles s now choice) ∧
    (update_obstacles s now choice).obstacles =
      (preCollide s now choice).obstacles.filter (fun o => decide (o.pos ≥ 0)) ∧
    (update_obstacles s now choice).score =
      s.score + ((preCollide s now choice).obstacles.filter
        (fun o => decide (o.pos < 0))).length ∧
    (update_obstacles s now choice).obstacles_passed =
      s.obstacles_passed + ((preCollide s now choice).obstacles.filter
        (fun o => decide (o.pos < 0))).length ∧
    (update_obstacles s now choice).ledCount = s.ledCount := by
  set s3 := preCollide s now choice with hs3
  obtain ⟨hb3, hd3⟩ := preCollide_obstacles s now choice hInv
  have hcount : (s3.obstacles.filter (fun o => decide (o.pos < 0))).length ≤ 1 := by
    rw [filter_neg_eq_negone _ (fun o ho => (hb3 o ho).1)]
    exact count_pos_le_one _ _ hd3
  have hres := tickMiss_false_result s now choice hm
  set c1 := (check_collisions s3 s3.obstacles).1 with hc1
  obtain ⟨hob, hsc, hpa, -, -, hled, -, -, -⟩ := check_collisions_fst s3 s3.obstacles
  have hcount1 : (c1.obstacles.filter (fun o => decide (o.pos < 0))).length ≤ 1 := by
    rw [hob]; exact hcount
  obtain ⟨pob, psc, ppa⟩ := prune_and_score_spec c1 hcount1
  obtain ⟨pl, ps, ppass, -, -, -, -, -, -, -, -, -⟩ := preCollide_fields s now choice
  have hledr : (update_obstacles s now choice).ledCount = s.ledCount := by
    rw [hres, (prune_and_score_fields c1).1, hled, pl]
  have hobr : (update_obstacles s now choice).obstacles
      = s3.obstacles.filter (fun o => decide (o.pos ≥ 0)) := by
    rw [hres, pob, hob]
  refine ⟨⟨?_, ?_⟩, hobr, ?_, ?_, hledr⟩
  · intro o ho
    rw [hobr] at ho
    have hmem := List.mem_of_mem_filter ho
    have hge : (0 : Int) ≤ o.pos := by
      have := List.of_mem_filter ho
      simpa using this
    refine ⟨hge, ?_⟩
    rw [hledr]
    exact (hb3 o hmem).2
  · rw [hobr]
    exact List.Pairwise.filter _ hd3
  · rw [hres, psc, hsc, ps, hob]
  · rw [hres, ppa, hpa, ppass, hob]

lemma run_no_miss_spec (ticks : List (ℚ × Nat)) : ∀ s : GameState, Inv s →
    noMissRun s ticks = true →
    Inv (runTicks s ticks) ∧
    (runTicks s ticks).score + s.obstacles_passed
      = s.score + (runTicks s ticks).obstacles_passed := by
  induction ticks with
  | nil => exact fun s h _ => ⟨h, rfl⟩
  | cons t rest ih =>
    intro s hInv hrun
    simp only [noMissRun, Bool.and_eq_true, Bool.not_eq_true'] at hrun
    obtain ⟨hm, hrest⟩ := hrun
    obtain ⟨hI, hob, hsc, hpa, -⟩ := tick_no_miss_spec s t.1 t.2 hInv hm
    obtain ⟨hI', heq⟩ := ih (update_obstacles s t.1 t.2) hI hrest
    simp only [runTicks]
    refine ⟨hI', ?_⟩
    omega

lemma tick_difficulty_le (s : GameState) (now : ℚ) (choice : Nat) :
    s.current_difficulty ≤ (update_obstacles s now choice).current_difficulty := by
  obtain ⟨-, -, -, hcd, -, -, -, -, -⟩ :=
    check_collisions_fst (preCollide s now choice) (preCollide s now choice).obstacles
  obtain ⟨-, -, -, -, -, -, -, hcd3, -, -, -, -⟩ := preCollide_fields s now choice
  unfold update_obstacles
  split
  · rw [hcd, hcd3]
  · have h := prune_difficulty_le (check_collisions (preCollide s now choice)
      (preCollide s now choice).obstacles).1
    rw [hcd, hcd3] at h
    exact h

lemma tick_spawn3 (s : GameState) (now : ℚ) (choice : Nat) (h : 3 ≤ s.spawn_interval) :
    3 ≤ (update_obstacles s now choice).spawn_interval := by
  obtain ⟨-, -, -, -, hsp, -, -, -, -⟩ :=
    check_collisions_fst (preCollide s now choice) (preCollide s now choice).obstacles
  obtain ⟨-, -, -, -, -, -, -, -, hsp3, -, -, -⟩ := preCollide_fields s now choice
  unfold update_obstacles
  split
  · rw [hsp, hsp3]; exact h
  · refine prune_spawn3 _ ?_
    rw [hsp, hsp3]; exact h

/-! ### Input handling preserves the obstacle invariant -/

lemma handle_event_ledCount (s : GameState) (ev : JoyEvent) (now : ℚ) :
    (handle_event s ev now).ledCount = s.ledCount := by
  unfold handle_event
  repeat' split
  all_goals rfl

lemma handle_event_spawn3 (s : GameState) (ev : JoyEvent) (now : ℚ)
    (h6 : 6 ≤ s.ledCount) (h : 3 ≤ s.spawn_interval) :
    3 ≤ (handle_event s ev now).spawn_interval := by
  unfold handle_event
  repeat' split
  all_goals first
    | exact h
    | (show 3 ≤ s.ledCount / 2; omega)

lemma handle_event_inv (s : GameState) (ev : JoyEvent) (now : ℚ) (h : Inv s) :
    Inv (handle_event s ev now) := by
  unfold handle_event
  repeat' split
  all_goals first
    | exact h
    | exact ⟨fun o ho => absurd ho (List.not_mem_nil o), List.Pairwise.nil⟩

/-! ### Indexing lemmas for the pixel buffer -/

lemma getD_set_self {α : Type} (l : List α) (i : Nat) (a d : α) (h : i < l.length) :
    (l.set i a).getD i d = a := by
  induction l generalizing i with
  | nil => simp at h
  | cons x l ih =>
    cases i with
    | zero => rfl
    | succ n =>
      show (l.set n a).getD n d = a
      exact ih n (by simpa using h)

lemma getD_set_ne {α : Type} (l : List α) (i j : Nat) (a d : α) (h : i ≠ j) :
    (l.set i a).getD j d = l.getD j d := by
  induction l generalizing i j with
  | nil => rfl
  | cons x l ih =>
    cases i with
    | zero =>
      cases j with
      | zero => exact absurd rfl h
      | succ m => rfl
    | succ n =>
      cases j with
      | zero => rfl
      | succ m =>
        show (l.set n a).getD m d = l.getD m d
        exact ih n m (fun hnm => h (by rw [hnm]))

lemma getD_replicate {α : Type} (n i : Nat) (c d : α) (h : i < n) :
    (List.replicate n c).getD i d = c := by
  induction n generalizing i with
  | zero => omega
  | succ m ih =>
    cases i with
    | zero => rfl
    | succ k => exact ih k (by omega)

lemma drawObstacles_length (c : Nat) (l : List Obstacle) : ∀ buf : List RGB,
    (drawObstacles c buf l).length = buf.length := by
  induction l with
  | nil => intro _; rfl
  | cons o l ih =>
    intro buf
    show (drawObstacles c
      (if 0 ≤ o.pos ∧ o.pos < (c : Int) then buf.set o.pos.toNat o.color else buf) l).length
      = buf.length
    rw [ih]
    split <;> simp

lemma drawObstacles_keep (c : Nat) (l : List Obstacle) (i : Nat) (d : RGB)
    (h : ∀ e ∈ l, 0 ≤ e.pos → e.pos < (c : Int) → e.pos.toNat ≠ i) :
    ∀ buf : List RGB, (drawObstacles c buf l).getD i d = buf.getD i d := by
  induction l with
  | nil => intro _; rfl
  | cons o l ih =>
    intro buf
    show (drawObstacles c
      (if 0 ≤ o.pos ∧ o.pos < (c : Int) then buf.set o.pos.toNat o.color else buf) l).getD i d
      = buf.getD i d
    rw [ih (fun e he => h e (List.mem_cons_of_mem _ he))]
    split
    · next hin => exact getD_set_ne _ _ _ _ _ (h o (List.mem_cons_self o l) hin.1 hin.2)
    · rfl

lemma drawObstacles_mem (c : Nat) (l : List Obstacle) (d : RGB)
    (hdist : l.Pairwise (fun a b => a.pos ≠ b.pos)) (o : Obstacle) (ho : o ∈ l)
    (h0 : 0 ≤ o.pos) (hc : o.pos < (c : Int)) :
    ∀ buf : List RGB, buf.length = c →
      (drawObstacles c buf l).getD o.pos.toNat d = o.color := by
  induction l with
  | nil => exact absurd ho (List.not_mem_nil o)
  | cons a l ih =>
    rw [List.pairwise_cons] at hdist
    intro buf hlen
    show (drawObstacles c
      (if 0 ≤ a.pos ∧ a.pos < (c : Int) then buf.set a.pos.toNat a.color else buf) l).getD
        o.pos.toNat d = o.color
    rcases List.mem_cons.mp ho with rfl | ho'
    · rw [drawObstacles_keep c l o.pos.toNat d ?hkeep]
      case hkeep =>
        intro e he he0 hec hteq
        exact hdist.1 e he (by omega)
      rw [if_pos ⟨h0, hc⟩]
      apply getD_set_self
      rw [hlen]
      omega
    · refine ih hdist.2 ho' _ ?_
      split <;> simp [List.length_set, hlen]

/-! ### The claims -/

/-- C3: the computed difficulty level matches the score table (≤2→1, ≤5→2, ≤9→3,
≤14→4, ≤20→5, beyond `5 + (score - 20) / 8`) with no upper cap, the computed level is
monotone in the score, and the stored difficulty level never decreases across a tick. -/
theorem C3_difficulty_table :
    (∀ sc : Nat,
      (sc ≤ 2 → new_difficulty sc = 1) ∧
      (3 ≤ sc → sc ≤ 5 → new_difficulty sc = 2) ∧
      (6 ≤ sc → sc ≤ 9 → new_difficulty sc = 3) ∧
      (10 ≤ sc → sc ≤ 14 → new_difficulty sc = 4) ∧
      (15 ≤ sc → sc ≤ 20 → new_difficulty sc = 5) ∧
      (21 ≤ sc → new_difficulty sc = 5 + (sc - 20) / 8)) ∧
    (∀ a b : Nat, a ≤ b → new_difficulty a ≤ new_difficulty b) ∧
    (∀ cap : Nat, ∃ sc : Nat, cap < new_difficulty sc) ∧
    (∀ (s : GameState) (now : ℚ) (choice : Nat),
      s.current_difficulty ≤ (update_obstacles s now choice).current_difficulty) := by
  refine ⟨?_, ?_, ?_, fun s now choice => tick_difficulty_le s now choice⟩
  · intro sc
    refine ⟨?_, ?_, ?_, ?_, ?_, ?_⟩ <;> (intros; unfold new_difficulty; split_ifs <;> omega)
  · intro a b hab
    unfold new_difficulty
    split_ifs <;> omega
  · intro cap
    refine ⟨8 * cap + 28, ?_⟩
    unfold new_difficulty
    split_ifs <;> omega

/-- C3 witness: concrete table and monotonicity instances. -/
theorem C3_difficulty_table_witness :
    new_difficulty 2 = 1 ∧ new_difficulty 15 = 5 ∧ new_difficulty 3 ≤ new_difficulty 10 := by
  obtain ⟨ht, hmono, -, -⟩ := C3_difficulty_table
  exact ⟨(ht 2).1 (by decide), (ht 15).2.2.2.2.1 (by decide) (by decide),
    hmono 3 10 (by decide)⟩

/-- C4 counterexample: immediately after a round reset on a strip of length 4 the spawn
interval is `4 // 2 = 2`, below the claimed minimum of 3, so the claim fails for that
strip length. -/
theorem C4_counterexample : ¬ 3 ≤ (reset_game smallStripState).spawn_interval := by decide

/-- C4 amended: for strip lengths of at least 6 the spawn interval is at least 3
immediately after a round reset, and once at least 3 it stays at least 3 across every
tick and every input event; on shorter strips the post-reset value `led_count // 2`
falls below 3. -/
theorem C4_spawn_interval_amended (s : GameState) (h6 : 6 ≤ s.ledCount) :
    3 ≤ (reset_game s).spawn_interval ∧
    (3 ≤ s.spawn_interval →
      ∀ (now : ℚ) (choice : Nat), 3 ≤ (update_obstacles s now choice).spawn_interval) ∧
    (3 ≤ s.spawn_interval →
      ∀ (ev : JoyEvent) (now : ℚ), 3 ≤ (handle_event s ev now).spawn_interval) := by
  refine ⟨?_, fun h now choice => tick_spawn3 s now choice h,
    fun h ev now => handle_event_spawn3 s ev now h6 h⟩
  show 3 ≤ s.ledCount / 2
  omega

/-- C4 witness: the amended guarantee evaluated on the 10-LED game. -/
theorem C4_spawn_interval_witness :
    3 ≤ (reset_game baseState).spawn_interval ∧
    3 ≤ (update_obstacles baseState 0 0).spawn_interval := by
  have h := C4_spawn_interval_amended baseState (by decide)
  exact ⟨h.1, h.2.1 (by decide) 0 0⟩

/-- C6: for every player count in {1,2,3,4} the color-to-player assignment matches the
fixed table: one player owns all four colors; two players split yellow+red vs
green+blue; three players get yellow, red, and green+blue; four players get one color
each in order. -/
theorem C6_assignment_table (bc : ButtonConfig) :
    (∀ c : ColorName, (assign_colors_to_players bc 1 c).player = 0) ∧
    ((assign_colors_to_players bc 2 .yellow).player = 0 ∧
     (assign_colors_to_players bc 2 .red).player = 0 ∧
     (assign_colors_to_players bc 2 .green).player = 1 ∧
     (assign_colors_to_players bc 2 .blue).player = 1) ∧
    ((assign_colors_to_players bc 3 .yellow).player = 0 ∧
     (assign_colors_to_players bc 3 .red).player = 1 ∧
     (assign_colors_to_players bc 3 .green).player = 2 ∧
     (assign_colors_to_players bc 3 .blue).player = 2) ∧
    ((assign_colors_to_players bc 4 .yellow).player = 0 ∧
     (assign_colors_to_players bc 4 .red).player = 1 ∧
     (assign_colors_to_players bc 4 .green).player = 2 ∧
     (assign_colors_to_players bc 4 .blue).player = 3) := by
  refine ⟨fun c => ?_, ⟨rfl, rfl, rfl, rfl⟩, ⟨rfl, rfl, rfl, rfl⟩, ⟨rfl, rfl, rfl, rfl⟩⟩
  cases c <;> rfl

/-- C7: the unlocked color count follows the schedule per player count (single player:
1 color, then 2/3/4 at scores 6/12/18; two players: 2, then 3 at 3 and 4 at 6; three
players: 3, then 4 at 6; four players: always 4), and the unlocked set is monotone
non-decreasing in the score. -/
theorem C7_color_unlock_schedule :
    (∀ sc : Nat, sc < 6 → (get_available_colors 1 sc).length = 1) ∧
    (∀ sc : Nat, 6 ≤ sc → sc < 12 → (get_available_colors 1 sc).length = 2) ∧
    (∀ sc : Nat, 12 ≤ sc → sc < 18 → (get_available_colors 1 sc).length = 3) ∧
    (∀ sc : Nat, 18 ≤ sc → (get_available_colors 1 sc).length = 4) ∧
    (∀ sc : Nat, sc < 3 → (get_available_colors 2 sc).length = 2) ∧
    (∀ sc : Nat, 3 ≤ sc → sc < 6 → (get_available_colors 2 sc).length = 3) ∧
    (∀ sc : Nat, 6 ≤ sc → (get_available_colors 2 sc).length = 4) ∧
    (∀ sc : Nat, sc < 6 → (get_available_colors 3 sc).length = 3) ∧
    (∀ sc : Nat, 6 ≤ sc → (get_available_colors 3 sc).length = 4) ∧
    (∀ sc : Nat, (get_available_colors 4 sc).length = 4) ∧
    (∀ (np a b : Nat), a ≤ b →
      ∀ c ∈ get_available_colors np a, c ∈ get_available_colors np b) := by
  refine ⟨?_, ?_, ?_, ?_, ?_, ?_, ?_, ?_, ?_, ?_, ?_⟩
  case _ => intro sc h; unfold get_available_colors; split_ifs <;> first | rfl | omega
  case _ => intro sc h h'; unfold get_available_colors; split_ifs <;> first | rfl | omega
  case _ => intro sc h h'; unfold get_available_colors; split_ifs <;> first | rfl | omega
  case _ => intro sc h; unfold get_available_colors; split_ifs <;> first | rfl | omega
  case _ => intro sc h; unfold get_available_colors; split_ifs <;> first | rfl | omega
  case _ => intro sc h h'; unfold get_available_colors; split_ifs <;> first | rfl | omega
  case _ => intro sc h; unfold get_available_colors; split_ifs <;> first | rfl | omega
  case _ => intro sc h; unfold get_available_colors; split_ifs <;> first | rfl | omega
  case _ => intro sc h; unfold get_available_colors; split_ifs <;> first | rfl | omega
  case _ => intro sc; unfold get_available_colors; split_ifs <;> first | rfl | omega
  case _ =>
    intro np a b hab c hc
    unfold get_available_colors at hc ⊢
    split_ifs at hc ⊢ <;> first | omega | (simp_all; try tauto)

/-- C1: during collision resolution in a Playing tick, the first obstacle at the
player position whose assigned player does not have the required button latched drives
the game straight to GameOver: the score is unchanged, the prune/score step is skipped
(the obstacle list is returned unpruned), and no obstacle after the miss is checked
(the color history gains exactly the hits strictly before the miss, whatever follows). -/
theorem C1_first_miss_aborts_tick (s : GameState) (now : ℚ) (choice : Nat)
    (pre : List Obstacle) (m : Obstacle) (post : List Obstacle)
    (hsplit : (preCollide s now choice).obstacles = pre ++ m :: post)
    (hpre : ∀ o ∈ pre, o.pos = (s.player_pos : Int) →
      is_button_pressed s.numPlayers (expire_presses s now).pressed_buttons o.player
        o.button = true)
    (hm : m.pos = (s.player_pos : Int))
    (hmiss : is_button_pressed s.numPlayers (expire_presses s now).pressed_buttons
      m.player m.button = false) :
    (update_obstacles s now choice).state = GState.gameOver ∧
    (update_obstacles s now choice).score = s.score ∧
    (update_obstacles s now choice).obstacles = pre ++ m :: post ∧
    (update_obstacles s now choice).color_history =
      s.color_history ++
        (pre.filter (fun o => decide (o.pos = (s.player_pos : Int)))).map
          (fun o => o.color) := by
  obtain ⟨-, ps, -, phist, ppp, pnp, ppb, -, -, -, -, -⟩ := preCollide_fields s now choice
  have hscan : scanHits (preCollide s now choice).numPlayers
      (preCollide s now choice).player_pos (preCollide s now choice).pressed_buttons
      (preCollide s now choice).obstacles
      = ((pre.filter (fun o => decide (o.pos = (s.player_pos : Int)))).map
          (fun o => o.color), true) := by
    rw [hsplit, pnp, ppp, ppb]
    exact scanHits_first_miss _ _ _ pre m post hpre hm hmiss
  have hm2 : tickMiss s now choice = true := by
    unfold tickMiss
    rw [check_collisions_eq, hscan]
  have hfinal : update_obstacles s now choice =
      { preCollide s now choice with
        color_history := (preCollide s now choice).color_history ++
          (pre.filter (fun o => decide (o.pos = (s.player_pos : Int)))).map
            (fun o => o.color),
        state := GState.gameOver } := by
    rw [tickMiss_true_result s now choice hm2, check_collisions_eq, hscan]
    simp
  refine ⟨?_, ?_, ?_, ?_⟩
  · rw [hfinal]
  · rw [hfinal]
    exact ps
  · rw [hfinal]
    exact hsplit
  · rw [hfinal]
    show (preCollide s now choice).color_history ++ _ = _
    rw [phist]

/-- C1 witness: a yellow obstacle reaches the player with nothing latched; the tick
ends in GameOver with the score untouched. -/
theorem C1_first_miss_witness :
    (update_obstacles w1State 0 0).state = GState.gameOver ∧
    (update_obstacles w1State 0 0).score = 0 := by
  have h := C1_first_miss_aborts_tick w1State 0 0 []
    ⟨5, (255, 255, 0), 4, 0, ColorName.yellow⟩ []
    (by decide) (fun o ho => absurd ho (List.not_mem_nil o)) (by decide) (by decide)
  exact ⟨h.1, h.2.1⟩

/-- C2: on a no-miss tick from a state with in-range, pairwise-distinct obstacle
positions, the prune step removes exactly the obstacles with negative position and the
score grows by exactly the number removed; over any no-miss run the total score gain
equals the total number of obstacles that passed. -/
theorem C2_prune_scores (s : GameState) (now : ℚ) (choice : Nat)
    (ticks : List (ℚ × Nat)) (hInv : Inv s)
    (hm : tickMiss s now choice = false) (hrun : noMissRun s ticks = true) :
    ((update_obstacles s now choice).obstacles =
        (preCollide s now choice).obstacles.filter (fun o => decide (o.pos ≥ 0)) ∧
      (update_obstacles s now choice).score =
        s.score + ((preCollide s now choice).obstacles.filter
          (fun o => decide (o.pos < 0))).length) ∧
    (runTicks s ticks).score + s.obstacles_passed
      = s.score + (runTicks s ticks).obstacles_passed := by
  obtain ⟨-, h1, h2, -, -⟩ := tick_no_miss_spec s now choice hInv hm
  exact ⟨⟨h1, h2⟩, (run_no_miss_spec ticks s hInv hrun).2⟩

/-- C2 witness: a tick that lets one obstacle pass scores exactly that obstacle. -/
theorem C2_prune_scores_witness :
    (update_obstacles w2State 0 0).score =
      w2State.score + ((preCollide w2State 0 0).obstacles.filter
        (fun o => decide (o.pos < 0))).length ∧
    (runTicks w2State [(0, 0)]).score + w2State.obstacles_passed
      = w2State.score + (runTicks w2State [(0, 0)]).obstacles_passed := by
  have h := C2_prune_scores w2State 0 0 [(0, 0)] ⟨by decide, by decide⟩
    (by decide) (by decide)
  exact ⟨h.1.2, h.2⟩

/-- C9: from any state whose obstacle positions are in `[0, N-1]` and pairwise
distinct, all positions immediately before the prune step of a tick are integers in
`[-1, N-1]` and at most one obstacle sits at the spawn position `N-1` (both there and
in the state itself); the invariant holds after a reset, after any input event, and
after any no-miss tick. -/
theorem C9_position_invariant (s : GameState) (now : ℚ) (choice : Nat) (hInv : Inv s) :
    (∀ o ∈ (preCollide s now choice).obstacles,
      -1 ≤ o.pos ∧ o.pos ≤ (s.ledCount : Int) - 1) ∧
    ((preCollide s now choice).obstacles.filter
      (fun o => decide (o.pos = (s.ledCount : Int) - 1))).length ≤ 1 ∧
    (s.obstacles.filter (fun o => decide (o.pos = (s.ledCount : Int) - 1))).length ≤ 1 ∧
    Inv (reset_game s) ∧
    (∀ ev : JoyEvent, Inv (handle_event s ev now)) ∧
    (tickMiss s now choice = false → Inv (update_obstacles s now choice)) := by
  obtain ⟨hb, hd⟩ := preCollide_obstacles s now choice hInv
  exact ⟨hb, count_pos_le_one _ _ hd, count_pos_le_one _ _ hInv.2,
    ⟨fun o ho => absurd ho (List.not_mem_nil o), List.Pairwise.nil⟩,
    fun ev => handle_event_inv s ev now hInv,
    fun hm => (tick_no_miss_spec s now choice hInv hm).1⟩

/-- C9 witness: the invariant consequences evaluated on a concrete two-obstacle state. -/
theorem C9_position_invariant_witness :
    ((preCollide w9State 0 0).obstacles.filter
      (fun o => decide (o.pos = (w9State.ledCount : Int) - 1))).length ≤ 1 ∧
    Inv (reset_game w9State) := by
  have h := C9_position_invariant w9State 0 0 ⟨by decide, by decide⟩
  exact ⟨h.2.1, h.2.2.2.1⟩

/-- C5: after the tick's lazy expiry sweep at time `now` (with the 1.0 hold window),
a latch reads active under `is_button_pressed` iff some matching entry satisfies
`now - press_time ≤ 1`: an entry exactly at the boundary stays active and any older
entry reads inactive. -/
theorem C5_hold_window (s : GameState) (now : ℚ) (p b : Nat)
    (hdur : s.button_duration = 1) :
    is_button_pressed s.numPlayers (expire_presses s now).pressed_buttons p b = true ↔
      ∃ e ∈ s.pressed_buttons, pressMatches s.numPlayers p b e.1 = true ∧
        now - e.2 ≤ 1 := by
  have hpb : (expire_presses s now).pressed_buttons
      = s.pressed_buttons.filter (fun e => !decide (now - e.2 > s.button_duration)) := rfl
  rw [hpb, hdur]
  unfold is_button_pressed pressMatches
  by_cases hnp : s.numPlayers = 1
  · simp only [hnp, if_pos]
    simp only [List.any_eq_true, List.mem_filter, Bool.not_eq_true',
      decide_eq_false_iff_not, not_lt, decide_eq_true_eq]
    constructor
    · rintro ⟨e, ⟨he, hw⟩, hb⟩
      exact ⟨e, he, hb, hw⟩
    · rintro ⟨e, he, hb, hw⟩
      exact ⟨e, ⟨he, hw⟩, hb⟩
  · simp only [hnp, if_neg, if_false]
    simp only [List.any_eq_true, List.mem_filter, Bool.not_eq_true',
      decide_eq_false_iff_not, not_lt, decide_eq_true_eq]
    constructor
    · rintro ⟨e, ⟨he, hw⟩, hb⟩
      exact ⟨e, he, hb, hw⟩
    · rintro ⟨e, he, hb, hw⟩
      exact ⟨e, ⟨he, hw⟩, hb⟩

/-- C5 witness: an entry pressed at time 4 and judged at time 5 sits exactly on the
1.0 boundary and still reads active. -/
theorem C5_hold_window_witness :
    is_button_pressed w5State.numPlayers (expire_presses w5State 5).pressed_buttons 0 4
      = true :=
  (C5_hold_window w5State 5 0 4 rfl).mpr ⟨((0, 4), 4), by decide, by decide, by norm_num⟩

/-- C8: with a color button (not the start button), an event latches a press only when
the state is Playing and the controller is within the player count; in multi-player it
must be the owning player of that color, in single-player only controller 0 can be the
source; in Paused and GameOver states the latch is never touched. -/
theorem C8_color_button_gating (s : GameState) (ev : JoyEvent) (now : ℚ)
    (hns : ev.button ≠ s.buttons.start) :
    (s.state ≠ GState.playing →
      (handle_event s ev now).pressed_buttons = s.pressed_buttons) ∧
    (s.numPlayers ≤ ev.joy → handle_event s ev now = s) ∧
    (s.state = GState.playing → ev.joy < s.numPlayers →
      ∀ cn : ColorName, findColorForButton s ev.button = some cn →
        (2 ≤ s.numPlayers → ev.joy ≠ (s.colors cn).player →
          (handle_event s ev now).pressed_buttons = s.pressed_buttons) ∧
        ((s.numPlayers = 1 ∨ ev.joy = (s.colors cn).player) →
          (handle_event s ev now).pressed_buttons =
            dictInsert (ev.joy, ev.button) now s.pressed_buttons) ∧
        (s.numPlayers = 1 → ev.joy = 0)) := by
  refine ⟨?_, ?_, ?_⟩
  · intro hstate
    unfold handle_event
    by_cases hj : ev.joy ≥ s.numPlayers
    · rw [if_pos hj]
    · rw [if_neg hj, if_neg hns, if_neg hstate]
  · intro hj
    unfold handle_event
    rw [if_pos hj]
  · intro hstate hj cn hcn
    unfold handle_event
    rw [if_neg (not_le.mpr hj), if_neg hns, if_pos hstate, hcn]
    dsimp only
    refine ⟨?_, ?_, ?_⟩
    · intro h2 hne
      rw [if_neg (by omega : ¬ s.numPlayers = 1), if_neg hne]
    · intro hor
      rcases hor with h1 | heq
      · rw [if_pos h1]
        rfl
      · by_cases h1 : s.numPlayers = 1
        · rw [if_pos h1]
          rfl
        · rw [if_neg h1, if_pos heq]
          rfl
    · intro h1
      omega

/-- C8 witness: in the two-player game, player 0 pressing the green button (owned by
player 1) creates no latch entry. -/
theorem C8_color_button_witness :
    (handle_event w8State ⟨0, 6⟩ 0).pressed_buttons = w8State.pressed_buttons := by
  have h := C8_color_button_gating w8State ⟨0, 6⟩ 0 (by decide)
  exact (h.2.2 rfl (by decide) ColorName.green (by decide)).1 (by decide) (by decide)

/-- C10: in the Playing render, the player pixel is written at the player position iff
the input latch is empty; with a non-empty latch the player LED shows the obstacle
color when an obstacle sits there and stays dark otherwise, while every in-range
obstacle is still drawn at its position. -/
theorem C10_player_pixel (s : GameState) (hpp : s.player_pos < s.ledCount)
    (hdist : s.obstacles.Pairwise (fun a b => a.pos ≠ b.pos)) :
    (s.pressed_buttons = [] →
      (update_display s).getD s.player_pos (0, 0, 0) = s.player_color) ∧
    (s.pressed_buttons ≠ [] →
      ((update_display s).getD s.player_pos (0, 0, 0) =
        match s.obstacles.find? (fun o => decide (o.pos = (s.player_pos : Int))) with
        | some o => o.color
        | none => (0, 0, 0)) ∧
      (∀ o ∈ s.obstacles, 0 ≤ o.pos → o.pos < (s.ledCount : Int) →
        (update_display s).getD o.pos.toNat (0, 0, 0) = o.color)) := by
  have hlen : (drawObstacles s.ledCount
      (List.replicate s.ledCount ((0 : Nat), (0 : Nat), (0 : Nat))) s.obstacles).length
      = s.ledCount := by
    rw [drawObstacles_length]
    exact List.length_replicate _ _
  constructor
  · intro hempty
    simp only [update_display]
    rw [if_pos (by rw [List.length_eq_zero]; exact hempty)]
    exact getD_set_self _ _ _ _ (by rw [hlen]; exact hpp)
  · intro hne
    simp only [update_display]
    rw [if_neg (by rw [List.length_eq_zero]; exact hne)]
    constructor
    · cases hf : s.obstacles.find? (fun o => decide (o.pos = (s.player_pos : Int))) with
      | none =>
        rw [drawObstacles_keep _ _ _ _ ?keepnone]
        case keepnone =>
          intro e he he0 hec hteq
          have hno := List.find?_eq_none.mp hf e he
          simp only [decide_eq_true_eq] at hno
          exact hno (by omega)
        exact getD_replicate _ _ _ _ hpp
      | some o =>
        have hmem := List.mem_of_find?_eq_some hf
        have hpos : o.pos = (s.player_pos : Int) := by
          have := List.find?_some hf
          simpa using this
        have hge : (0 : Int) ≤ o.pos := by omega
        have hlt : o.pos < (s.ledCount : Int) := by omega
        have hdm := drawObstacles_mem s.ledCount s.obstacles (0, 0, 0) hdist o hmem hge
          hlt (List.replicate s.ledCount ((0 : Nat), (0 : Nat), (0 : Nat)))
          (List.length_replicate _ _)
        rw [show o.pos.toNat = s.player_pos from by omega] at hdm
        exact hdm
    · intro o ho h0 hc
      exact drawObstacles_mem s.ledCount s.obstacles (0, 0, 0) hdist o ho h0 hc
        (List.replicate s.ledCount ((0 : Nat), (0 : Nat), (0 : Nat)))
        (List.length_replicate _ _)

/-- C10 witness: with a latched button and a yellow obstacle on the player position,
the player LED shows the obstacle color, not the player color. -/
theorem C10_player_pixel_witness :
    (update_display w10State).getD w10State.player_pos (0, 0, 0) = (255, 255, 0) := by
  have h := (C10_player_pixel w10State (by decide) (by decide)).2 (by decide)
  rw [h.1]
  rfl

/-- C7 witness: concrete schedule and monotonicity instances. -/
theorem C7_color_unlock_witness :
    (get_available_colors 1 5).length = 1 ∧
    (get_available_colors 2 3).length = 3 ∧
    ColorName.yellow ∈ get_available_colors 1 20 := by
  obtain ⟨h1, -, -, -, -, h6, -, -, -, -, hmono⟩ := C7_color_unlock_schedule
  exact ⟨h1 5 (by decide), h6 3 (by decide) (by decide),
    hmono 1 0 20 (by decide) ColorName.yellow (by decide)⟩

end LedGame
